import Mathlib

/-!
Shallow embedding of the insurance rule engine in `src/rules.py`
(class `InsuranceAnalyzer`): the six category evaluators, the overall-medal
aggregator and the rectifier, together with theorems checking the
natural-language specification against this embedding.

Modelling conventions:
* Python numbers are embedded as `ℚ`; Python strings as `String`;
  Python dicts with a known field set as structures whose fields are
  `Option`-valued (`none` = key absent, mirroring `dict.get`).
* The `details` dict attached to each `CategoryResult` holds heterogeneous
  values, embedded as association lists over the `Val` sum type.
* `datetime.strptime`/`datetime.now()` (library calls, not repository code)
  are abstracted: the dental evaluator receives the parse outcome of the
  birth date as `Option Int` (days; `none` = `strptime` raised) and the
  current date as an `Int` day count, and recomputes the age exactly as
  line 251 of the source does.
* The analyzer's mutable state (`self.results`, and the in-place filling of
  the caller's `prestations` dict at lines 177-179) is made explicit:
  `analyze_pdf` returns the analysis together with the post-call state of
  its input, and `rectify_analysis`/`calculate_overall_medal` take the
  stored result list as an explicit argument.
-/

namespace Rules

/-- Values stored in a `CategoryResult.details` dict (strings, numbers,
booleans, or the nested prestations dict of the Ambulatoire category). -/
inductive Val where
  | str : String → Val
  | num : ℚ → Val
  | bool : Bool → Val
  | dict : List (String × String) → Val
deriving DecidableEq, Repr

/-- Constant `TARIF_REFERENCE_SEANCE = 120` (line 11). -/
def TARIF_REFERENCE_SEANCE : ℚ := 120

/-- Constant `TARIF_NUITEE = 1500` (line 12). -/
def TARIF_NUITEE : ℚ := 1500

/-- Dataclass `CategoryResult` (lines 18-22). -/
structure CategoryResult where
  name : String
  color : String
  details : List (String × Val)
deriving DecidableEq, Repr

/-- Dataclass `InsuranceAnalysis` (lines 25-28). -/
structure InsuranceAnalysis where
  overall_medal : String
  categories : List CategoryResult
deriving DecidableEq, Repr

/-- The fixed category order `self.categories` (line 33). -/
def categories_list : List String :=
  ["Médecine naturelle", "Hospitalisation", "Voyage", "Ambulatoire", "Accident", "Dentaire"]

/-- Sub-record `pdf_data["medecine_naturelle"]` as read by lines 73-83. -/
structure MedecineNaturelleData where
  etendue : Option ℚ
  montant_par_seance : Option ℚ
  plafond : Option ℚ
  franchise : Option ℚ
deriving DecidableEq, Repr

/-- Sub-record `pdf_data["hospitalisation"]` as read by lines 104-108. -/
structure HospitalisationData where
  type : Option String
  etendue : Option ℚ
  franchise : Option ℚ
  compagnie : Option String
  franchise_volontaire : Option Bool
deriving DecidableEq, Repr

/-- Sub-record `pdf_data["voyage"]` as read by lines 149-151. -/
structure VoyageData where
  traitement_urgence : Option Bool
  rapatriement : Option Bool
  annulation : Option Bool
deriving DecidableEq, Repr

/-- Sub-record `pdf_data["ambulatoire"]` as read by lines 171-172; the
`prestations` dict is an insertion-ordered association list. -/
structure AmbulatoireData where
  prestations : Option (List (String × String))
  participation : Option ℚ
deriving DecidableEq, Repr

/-- Sub-record `pdf_data["accident"]` as read by lines 216-218. -/
structure AccidentData where
  clinique_privee : Option Bool
  prestations_supplementaires : Option Bool
  capital_deces_invalidite : Option Bool
deriving DecidableEq, Repr

/-- Sub-record `pdf_data["dentaire"]` as read by lines 242-245. -/
structure DentaireData where
  etendue : Option ℚ
  plafond : Option ℚ
  franchise : Option ℚ
  orthodontie : Option ℚ
deriving DecidableEq, Repr

/-- The structured PDF data handed to `analyze_pdf` (its `pdf_data` dict). -/
structure PdfData where
  birth_date : Option String
  medecine_naturelle : Option MedecineNaturelleData
  hospitalisation : Option HospitalisationData
  voyage : Option VoyageData
  ambulatoire : Option AmbulatoireData
  accident : Option AccidentData
  dentaire : Option DentaireData
deriving DecidableEq, Repr

/-- Python `round(x, 2)` at line 78. Python rounds halves to even; the model
rounds halves up, which agrees away from exact half-cent midpoints. -/
def round2 (q : ℚ) : ℚ := (round (q * 100) : ℤ) / 100

/-- Python `str.lower()` as used at lines 104 and 107, as a character-wise
map (`Char.toLower` lowers the ASCII range, which is what the compared
literals "kpt", "privé", "semi-privé" exercise). -/
def str_lower (s : String) : String := String.mk (s.data.map Char.toLower)

/-- Evaluator `analyze_medecine_naturelle` (lines 69-99). -/
def analyze_medecine_naturelle (data : MedecineNaturelleData) : CategoryResult :=
  let etendue : ℚ :=
    match data.etendue, data.montant_par_seance with
    | none, some montant => round2 (montant / TARIF_REFERENCE_SEANCE * 100)
    | none, none => 0
    | some e, _ => e
  let plafond := data.plafond.getD 0
  let franchise := data.franchise.getD 0
  let details : List (String × Val) :=
    [("etendue", .num etendue), ("plafond", .num plafond), ("franchise", .num franchise)]
  if etendue ≥ 80 ∧ plafond ≥ 20 ∧ franchise = 0 then
    CategoryResult.mk "Médecine naturelle" "Vert" details
  else if etendue ≥ 50 ∧ etendue < 80 ∧ plafond ≥ 10 ∧ plafond < 20 ∧ franchise < 200 then
    CategoryResult.mk "Médecine naturelle" "Orange" details
  else
    CategoryResult.mk "Médecine naturelle" "Rouge" details

/-- The CHF/jour → % conversion of lines 111-114: a coverage above 100 is a
daily amount and is converted to a percentage of `TARIF_NUITEE`. -/
def etendue_percent (etendue : ℚ) : ℚ :=
  if etendue > 100 then etendue / TARIF_NUITEE * 100 else etendue

/-- Evaluator `analyze_hospitalisation` (lines 101-144). The general rules (lines
133-144) are bound once and reached both directly and by fall-through from
the KPT special case. -/
def analyze_hospitalisation (data : HospitalisationData) : CategoryResult :=
  let type_prestation := str_lower (data.type.getD "commune")
  let etendue := data.etendue.getD 0
  let franchise := data.franchise.getD 0
  let compagnie := str_lower (data.compagnie.getD "")
  let franchise_volontaire := data.franchise_volontaire.getD false
  let ep := etendue_percent etendue
  let general : CategoryResult :=
    if type_prestation = "privé" ∧ ep ≤ 0 ∧ franchise = 0 then
      CategoryResult.mk "Hospitalisation" "Vert"
        [("type", .str type_prestation), ("etendue_percent", .num ep), ("franchise", .num franchise)]
    else if type_prestation = "semi-privé" ∧ ep ≤ 10 then
      CategoryResult.mk "Hospitalisation" "Orange"
        [("type", .str type_prestation), ("etendue_percent", .num ep), ("franchise", .num franchise)]
    else
      CategoryResult.mk "Hospitalisation" "Rouge"
        [("type", .str type_prestation), ("etendue_percent", .num ep), ("franchise", .num franchise)]
  if compagnie = "kpt" ∧ franchise_volontaire = true then
    if type_prestation = "privé" ∧ ep ≤ 0 then
      CategoryResult.mk "Hospitalisation" "Vert"
        [("cas_particulier", .str "KPT + franchise volontaire"), ("type", .str type_prestation),
         ("etendue_percent", .num ep), ("franchise", .num franchise)]
    else if type_prestation = "semi-privé" ∧ ep ≤ 10 then
      CategoryResult.mk "Hospitalisation" "Orange"
        [("cas_particulier", .str "KPT + franchise volontaire"), ("type", .str type_prestation),
         ("etendue_percent", .num ep), ("franchise", .num franchise)]
    else general
  else general

/-- Evaluator `analyze_voyage` (lines 147-167). -/
def analyze_voyage (data : VoyageData) : CategoryResult :=
  let urgence := data.traitement_urgence.getD false
  let rapatriement := data.rapatriement.getD false
  let annulation := data.annulation.getD false
  let details : List (String × Val) :=
    [("urgence", .bool urgence), ("rapatriement", .bool rapatriement), ("annulation", .bool annulation)]
  if urgence = true ∧ rapatriement = true ∧ annulation = true then
    CategoryResult.mk "Voyage" "Vert" details
  else if urgence = true ∧ rapatriement = true ∧ annulation = false then
    CategoryResult.mk "Voyage" "Orange" details
  else
    CategoryResult.mk "Voyage" "Rouge" details

/-- The five required Ambulatoire service keys (line 174). -/
def required_keys : List String :=
  ["lunettes", "psychotherapie", "medicaments_hors_liste", "transport", "sauvetage"]

/-- The in-place default-filling loop of lines 177-179: each required key
missing from the prestations dict is inserted with value "absent"
(dict insertion appends at the end). -/
def fill_required (prestations : List (String × String)) : List (String × String) :=
  required_keys.foldl
    (fun m key => if (m.lookup key).isSome then m else m ++ [(key, "absent")]) prestations

/-- Evaluator `analyze_ambulatoire` (lines 169-212). Besides the `CategoryResult` it
returns the prestations dict after the in-place filling, which `analyze_pdf`
uses to form the post-call state of the input (the dict is the caller's
object when the `prestations` key was present). -/
def analyze_ambulatoire (data : AmbulatoireData) : CategoryResult × List (String × String) :=
  let prestations := fill_required (data.prestations.getD [])
  let participation := data.participation.getD 0
  let values := prestations.map Prod.snd
  let details : List (String × Val) :=
    [("prestations", .dict prestations), ("participation", .num participation)]
  if (∀ v ∈ values, v = "illimité") ∧ participation ≤ 10 then
    (CategoryResult.mk "Ambulatoire" "Vert" details, prestations)
  else if (∀ v ∈ values, v = "illimité") ∧ participation > 10 then
    (CategoryResult.mk "Ambulatoire" "Orange" details, prestations)
  else if (∀ v ∈ values, v = "limité") ∧ participation ≤ 10 then
    (CategoryResult.mk "Ambulatoire" "Orange" details, prestations)
  else if (∀ v ∈ values, v = "limité" ∨ v = "illimité") ∧ participation > 10 then
    (CategoryResult.mk "Ambulatoire" "Rouge" details, prestations)
  else if ∃ v ∈ values, v = "absent" then
    (CategoryResult.mk "Ambulatoire" "Rouge" details, prestations)
  else
    (CategoryResult.mk "Ambulatoire" "Rouge" details, prestations)

/-- Evaluator `analyze_accident` (lines 214-238). -/
def analyze_accident (data : AccidentData) : CategoryResult :=
  let clinique := data.clinique_privee.getD false
  let prestations_sup := data.prestations_supplementaires.getD false
  let capital_deces := data.capital_deces_invalidite.getD false
  let details : List (String × Val) :=
    [("clinique", .bool clinique), ("prestations_sup", .bool prestations_sup),
     ("capital_deces", .bool capital_deces)]
  if clinique = true ∧ prestations_sup = true ∧ capital_deces = true then
    CategoryResult.mk "Accident" "Vert" details
  else if clinique = true ∧ ¬(prestations_sup = true ∨ capital_deces = true) then
    CategoryResult.mk "Accident" "Orange" details
  else
    CategoryResult.mk "Accident" "Rouge" details

/-- The age computation of line 251: `(datetime.now() - birth_dt).days // 365`,
with both dates as day counts. `parsedBirth = none` models `strptime` raising
(lines 254-256), in which case no age is available. -/
def computed_age (parsedBirth : Option Int) (nowDays : Int) : Option Int :=
  parsedBirth.map (fun b => Int.fdiv (nowDays - b) 365)

/-- Evaluator `analyze_dentaire` (lines 240-282). `is_child` is false when the birth
date failed to parse (the `except` branch at lines 254-256). -/
def analyze_dentaire (data : DentaireData) (parsedBirth : Option Int) (nowDays : Int) :
    CategoryResult :=
  let etendue := data.etendue.getD 0
  let plafond := data.plafond.getD 0
  let franchise := data.franchise.getD 0
  let orthodontie := data.orthodontie.getD 0
  let is_child : Bool :=
    match computed_age parsedBirth nowDays with
    | some age => decide (age < 12)
    | none => false
  let details : List (String × Val) :=
    [("etendue", .num etendue), ("plafond", .num plafond), ("franchise", .num franchise),
     ("orthodontie", .num orthodontie), ("is_child", .bool is_child)]
  if is_child = true ∧ orthodontie < 10000 then
    CategoryResult.mk "Dentaire" "Rouge" details
  else if etendue ≥ 75 ∧ plafond ≥ 3000 ∧ franchise = 0 then
    CategoryResult.mk "Dentaire" "Vert" details
  else if etendue ≥ 50 ∧ plafond ≥ 1000 ∧ franchise < 200 then
    CategoryResult.mk "Dentaire" "Orange" details
  else
    CategoryResult.mk "Dentaire" "Rouge" details

/-- Aggregator `calculate_overall_medal` (lines 284-300), with the analyzer's stored
`self.results` passed explicitly. -/
def calculate_overall_medal (results : List CategoryResult) : String :=
  let orange_count := results.countP (fun r => r.color == "Orange")
  let rouge_count := results.countP (fun r => r.color == "Rouge")
  if rouge_count = 0 ∧ orange_count = 0 then "Gold"
  else if rouge_count ≤ 1 ∧ orange_count ≤ 3 then "Silver"
  else "Bronze"

/-- Rectifier `rectify_analysis` (lines 302-312), with the analyzer's stored
`self.results` passed explicitly; its `categories` field is also the new
stored result list. -/
def rectify_analysis (results : List CategoryResult) (optional_exclusions : List String) :
    InsuranceAnalysis :=
  let filtered_results := results.filter (fun r => decide (r.name ∉ optional_exclusions))
  InsuranceAnalysis.mk (calculate_overall_medal filtered_results) filtered_results

/-- Entry point `analyze_pdf` (lines 37-67). Returns the analysis paired with the
post-call state of `pdf_data`: the in-place key filling of lines 177-179
mutates the caller's prestations dict exactly when the `ambulatoire` key and
its `prestations` key are both present (otherwise the filled dict is the
fresh `{}` default and is dropped). -/
def analyze_pdf (pdf_data : PdfData) (parsedBirth : Option Int) (nowDays : Int) :
    InsuranceAnalysis × PdfData :=
  let amb := analyze_ambulatoire (pdf_data.ambulatoire.getD ⟨none, none⟩)
  let results : List CategoryResult :=
    [analyze_medecine_naturelle (pdf_data.medecine_naturelle.getD ⟨none, none, none, none⟩),
     analyze_hospitalisation (pdf_data.hospitalisation.getD ⟨none, none, none, none, none⟩),
     analyze_voyage (pdf_data.voyage.getD ⟨none, none, none⟩),
     amb.1,
     analyze_accident (pdf_data.accident.getD ⟨none, none, none⟩),
     analyze_dentaire (pdf_data.dentaire.getD ⟨none, none, none, none⟩) parsedBirth nowDays]
  let post : PdfData :=
    match pdf_data.ambulatoire with
    | none => pdf_data
    | some a =>
      match a.prestations with
      | none => pdf_data
      | some _ => { pdf_data with ambulatoire := some { a with prestations := some amb.2 } }
  (InsuranceAnalysis.mk (calculate_overall_medal results) results, post)

/-- Tier order Bronze < Silver < Gold, as a rank. -/
def medal_rank (medal : String) : Nat :=
  if medal = "Gold" then 2 else if medal = "Silver" then 1 else 0

/-- The medal decision of lines 291-300 as a pure function of the Rouge and
Orange counts. -/
def medal_from_counts (rouge_count orange_count : Nat) : String :=
  if rouge_count = 0 ∧ orange_count = 0 then "Gold"
  else if rouge_count ≤ 1 ∧ orange_count ≤ 3 then "Silver"
  else "Bronze"

theorem calculate_overall_medal_eq_counts (results : List CategoryResult) :
    calculate_overall_medal results =
      medal_from_counts (results.countP (fun r => r.color == "Rouge"))
        (results.countP (fun r => r.color == "Orange")) := rfl

theorem rank_medal_from_counts (rouge_count orange_count : Nat) :
    medal_rank (medal_from_counts rouge_count orange_count) =
      if rouge_count = 0 ∧ orange_count = 0 then 2
      else if rouge_count ≤ 1 ∧ orange_count ≤ 3 then 1
      else 0 := by
  unfold medal_from_counts medal_rank
  split_ifs <;> simp_all

theorem medal_from_counts_cases (r o : Nat) :
    (medal_from_counts r o = "Gold" ↔ r = 0 ∧ o = 0) ∧
    (medal_from_counts r o = "Silver" ↔ (¬(r = 0 ∧ o = 0) ∧ r ≤ 1 ∧ o ≤ 3)) ∧
    (medal_from_counts r o = "Bronze" ↔ ¬(r ≤ 1 ∧ o ≤ 3)) := by
  unfold medal_from_counts
  refine ⟨?_, ?_, ?_⟩ <;> split_ifs <;> simp_all

theorem rank_mono_counts {r o r' o' : Nat} (hr : r' ≤ r) (ho : o' ≤ o) :
    medal_rank (medal_from_counts r o) ≤ medal_rank (medal_from_counts r' o') := by
  rw [rank_medal_from_counts, rank_medal_from_counts]
  split_ifs <;> omega

/-- C1: the overall tier is a function only of the Rouge and Orange counts
among the current category results: two result lists with equal counts get
the same medal, and the medal is Gold iff both counts are 0, Silver iff (not
Gold and) Rouge ≤ 1 and Orange ≤ 3, and Bronze otherwise. -/
theorem overall_medal_function_of_counts (rs rs' : List CategoryResult)
    (ho : rs.countP (fun r => r.color == "Orange") = rs'.countP (fun r => r.color == "Orange"))
    (hr : rs.countP (fun r => r.color == "Rouge") = rs'.countP (fun r => r.color == "Rouge")) :
    calculate_overall_medal rs = calculate_overall_medal rs' ∧
    (calculate_overall_medal rs = "Gold" ↔
      rs.countP (fun r => r.color == "Rouge") = 0 ∧
        rs.countP (fun r => r.color == "Orange") = 0) ∧
    (calculate_overall_medal rs = "Silver" ↔
      (¬(rs.countP (fun r => r.color == "Rouge") = 0 ∧
          rs.countP (fun r => r.color == "Orange") = 0) ∧
        rs.countP (fun r => r.color == "Rouge") ≤ 1 ∧
        rs.countP (fun r => r.color == "Orange") ≤ 3)) ∧
    (calculate_overall_medal rs = "Bronze" ↔
      ¬(rs.countP (fun r => r.color == "Rouge") ≤ 1 ∧
        rs.countP (fun r => r.color == "Orange") ≤ 3)) := by
  rw [calculate_overall_medal_eq_counts, calculate_overall_medal_eq_counts, ho, hr]
  exact ⟨rfl, (medal_from_counts_cases _ _).1, (medal_from_counts_cases _ _).2.1,
    (medal_from_counts_cases _ _).2.2⟩

/-- C1 witness: a concrete result list with 1 Rouge and 2 Orange is Silver. -/
theorem overall_medal_function_of_counts_witness :
    calculate_overall_medal
      [CategoryResult.mk "Hospitalisation" "Rouge" [],
       CategoryResult.mk "Voyage" "Orange" [],
       CategoryResult.mk "Dentaire" "Orange" []] = "Silver" := by
  exact ((overall_medal_function_of_counts
    [CategoryResult.mk "Hospitalisation" "Rouge" [],
     CategoryResult.mk "Voyage" "Orange" [],
     CategoryResult.mk "Dentaire" "Orange" []]
    [CategoryResult.mk "Hospitalisation" "Rouge" [],
     CategoryResult.mk "Voyage" "Orange" [],
     CategoryResult.mk "Dentaire" "Orange" []] rfl rfl).2.2.1).mpr (by decide)

theorem countP_filter_eq_of_removed_vert (rs : List CategoryResult) (ex : List String)
    (h : ∀ r ∈ rs, r.name ∈ ex → r.color = "Vert") (c : String) (hc : ¬c = "Vert") :
    (rs.filter (fun r => decide (r.name ∉ ex))).countP (fun r => r.color == c) =
      rs.countP (fun r => r.color == c) := by
  induction rs with
  | nil => rfl
  | cons r rs ih =>
    have hr := h r (List.mem_cons_self r rs)
    have htail : ∀ x ∈ rs, x.name ∈ ex → x.color = "Vert" :=
      fun x hx => h x (List.mem_cons_of_mem r hx)
    have ih2 := ih htail
    by_cases hmem : r.name ∈ ex
    · have hv : r.color = "Vert" := hr hmem
      have hcc : (r.color == c) = false := by
        simp only [hv, beq_eq_false_iff_ne, ne_eq]
        exact fun hvc => hc hvc.symm
      have hp : decide (r.name ∉ ex) = false := decide_eq_false (not_not_intro hmem)
      rw [List.filter_cons, hp, if_neg Bool.false_ne_true, List.countP_cons, hcc,
        if_neg Bool.false_ne_true, Nat.add_zero]
      exact ih2
    · have hp : decide (r.name ∉ ex) = true := decide_eq_true hmem
      rw [List.filter_cons, hp, if_pos rfl, List.countP_cons, List.countP_cons, ih2]

/-- C3: rectification is monotone toward Gold; removing categories never
lowers the medal in the order Bronze < Silver < Gold, and when every removed
category is Vert the medal is unchanged. -/
theorem rectify_monotone_toward_gold (rs : List CategoryResult) (ex : List String) :
    medal_rank (calculate_overall_medal rs) ≤
      medal_rank ((rectify_analysis rs ex).overall_medal) ∧
    ((∀ r ∈ rs, r.name ∈ ex → r.color = "Vert") →
      (rectify_analysis rs ex).overall_medal = calculate_overall_medal rs) := by
  constructor
  · show medal_rank (calculate_overall_medal rs) ≤
      medal_rank (calculate_overall_medal (rs.filter (fun r => decide (r.name ∉ ex))))
    rw [calculate_overall_medal_eq_counts, calculate_overall_medal_eq_counts]
    exact rank_mono_counts ((List.filter_sublist rs).countP_le _)
      ((List.filter_sublist rs).countP_le _)
  · intro h
    show calculate_overall_medal (rs.filter (fun r => decide (r.name ∉ ex))) =
      calculate_overall_medal rs
    rw [calculate_overall_medal_eq_counts, calculate_overall_medal_eq_counts,
      countP_filter_eq_of_removed_vert rs ex h "Rouge" (by decide),
      countP_filter_eq_of_removed_vert rs ex h "Orange" (by decide)]

/-- C3 witness: removing the Vert category "Voyage" from a concrete result
list neither lowers the medal nor changes it. -/
theorem rectify_monotone_toward_gold_witness :
    medal_rank (calculate_overall_medal
        [CategoryResult.mk "Voyage" "Vert" [], CategoryResult.mk "Accident" "Rouge" []]) ≤
      medal_rank ((rectify_analysis
        [CategoryResult.mk "Voyage" "Vert" [], CategoryResult.mk "Accident" "Rouge" []]
        ["Voyage"]).overall_medal) ∧
    (rectify_analysis
        [CategoryResult.mk "Voyage" "Vert" [], CategoryResult.mk "Accident" "Rouge" []]
        ["Voyage"]).overall_medal =
      calculate_overall_medal
        [CategoryResult.mk "Voyage" "Vert" [], CategoryResult.mk "Accident" "Rouge" []] := by
  refine ⟨(rectify_monotone_toward_gold _ _).1, (rectify_monotone_toward_gold _ _).2 ?_⟩
  decide

/-- C2: whenever the derived age in years is below 12 and the orthodontics
amount is below 10000, the Dentaire evaluator answers Rouge regardless of
coverage, cap and deductible. -/
theorem dentaire_child_override (data : DentaireData) (birthDays nowDays : Int)
    (hage : Int.fdiv (nowDays - birthDays) 365 < 12)
    (horth : data.orthodontie.getD 0 < 10000) :
    (analyze_dentaire data (some birthDays) nowDays).color = "Rouge" := by
  have hchild : decide (Int.fdiv (nowDays - birthDays) 365 < 12) = true := decide_eq_true hage
  simp [analyze_dentaire, computed_age, hchild, horth]

/-- C2 witness: the spec's Scenario 5 numbers — age 8 (2970 days after the
birth date), orthodontics 5000, coverage 90, cap 5000, deductible 0 — give
Rouge even though the Vert rule's numeric conditions hold. -/
theorem dentaire_child_override_witness :
    (analyze_dentaire (DentaireData.mk (some 90) (some 5000) (some 0) (some 5000))
      (some 0) 2970).color = "Rouge" :=
  dentaire_child_override (DentaireData.mk (some 90) (some 5000) (some 0) (some 5000))
    0 2970 (by decide) (by decide)

/-- C7: when the birth date fails to parse the Dentaire evaluator does not
fail; the subject counts as not-a-child and the returned color is exactly
what the remaining Vert/Orange/Rouge rules on coverage, cap and deductible
assign. -/
theorem dentaire_unparseable_birth_date (data : DentaireData) (nowDays : Int) :
    (analyze_dentaire data none nowDays).color =
      (if data.etendue.getD 0 ≥ 75 ∧ data.plafond.getD 0 ≥ 3000 ∧ data.franchise.getD 0 = 0
        then "Vert"
        else if data.etendue.getD 0 ≥ 50 ∧ data.plafond.getD 0 ≥ 1000 ∧
            data.franchise.getD 0 < 200
        then "Orange"
        else "Rouge") := by
  simp only [analyze_dentaire, computed_age, Option.map_none', Bool.false_eq_true, false_and,
    if_false]
  split_ifs <;> rfl

/-- C6: the Hospitalisation coverage normalization — every branch of the
evaluator reports `etendue_percent` of the coverage, which equals
coverage / 1500 × 100 when coverage > 100 and the raw coverage otherwise. -/
theorem hospitalisation_normalisation (data : HospitalisationData) :
    ((analyze_hospitalisation data).details.lookup "etendue_percent"
      = some (.num (etendue_percent (data.etendue.getD 0)))) ∧
    (data.etendue.getD 0 > 100 →
      etendue_percent (data.etendue.getD 0) = data.etendue.getD 0 / TARIF_NUITEE * 100) ∧
    (data.etendue.getD 0 ≤ 100 →
      etendue_percent (data.etendue.getD 0) = data.etendue.getD 0) := by
  refine ⟨?_, ?_, ?_⟩
  · simp only [analyze_hospitalisation]
    split_ifs <;> rfl
  · intro h
    rw [etendue_percent, if_pos h]
  · intro h
    rw [etendue_percent, if_neg (not_lt.mpr h)]

/-- C6 witness: coverage 150 (> 100) normalizes to exactly 10, and coverage
10 (≤ 100) stays 10. -/
theorem hospitalisation_normalisation_witness :
    etendue_percent ((HospitalisationData.mk none (some 150) none none none).etendue.getD 0)
        = 10 ∧
    etendue_percent ((HospitalisationData.mk none (some 10) none none none).etendue.getD 0)
        = 10 := by
  constructor
  · rw [(hospitalisation_normalisation
      (HospitalisationData.mk none (some 150) none none none)).2.1 (by norm_num)]
    norm_num [TARIF_NUITEE]
  · rw [(hospitalisation_normalisation
      (HospitalisationData.mk none (some 10) none none none)).2.2 (by norm_num)]
    rfl

/-- C8: an exclusion name that matches no produced category is a no-op for
rectification — adding it to the exclusion set changes neither the surviving
category sequence nor the overall medal, and no error is raised. -/
theorem rectify_unknown_exclusion_noop (rs : List CategoryResult) (ex : List String)
    (n : String) (h : ∀ r ∈ rs, r.name ≠ n) :
    rectify_analysis rs (n :: ex) = rectify_analysis rs ex := by
  unfold rectify_analysis
  have hfilter : rs.filter (fun r => decide (r.name ∉ n :: ex)) =
      rs.filter (fun r => decide (r.name ∉ ex)) := by
    apply List.filter_congr
    intro r hr
    rw [decide_eq_decide]
    simp [List.mem_cons, h r hr]
  rw [hfilter]

/-- C8 witness: excluding the unknown name "Inconnu" on a concrete result
list gives the same analysis as not excluding it. -/
theorem rectify_unknown_exclusion_noop_witness :
    rectify_analysis
        [CategoryResult.mk "Voyage" "Vert" [], CategoryResult.mk "Accident" "Rouge" []]
        ["Inconnu", "Accident"] =
      rectify_analysis
        [CategoryResult.mk "Voyage" "Vert" [], CategoryResult.mk "Accident" "Rouge" []]
        ["Accident"] :=
  rectify_unknown_exclusion_noop
    [CategoryResult.mk "Voyage" "Vert" [], CategoryResult.mk "Accident" "Rouge" []]
    ["Accident"] "Inconnu" (by decide)

/-- C9: the Ambulatoire color quantifies over every entry of the services
dict, not only the five required keys — with all five required services
"illimité" and participation 5 ≤ 10, one extra key with value "limité"
makes the evaluator fall through every enumerated case and answer Rouge
instead of Vert. -/
theorem ambulatoire_extra_key_red :
    (∀ key ∈ required_keys,
      ([("lunettes", "illimité"), ("psychotherapie", "illimité"),
        ("medicaments_hors_liste", "illimité"), ("transport", "illimité"),
        ("sauvetage", "illimité"), ("acupuncture", "limité")].lookup key
        = some "illimité")) ∧
    ((5 : ℚ) ≤ 10) ∧
    (analyze_ambulatoire (AmbulatoireData.mk
      (some [("lunettes", "illimité"), ("psychotherapie", "illimité"),
        ("medicaments_hors_liste", "illimité"), ("transport", "illimité"),
        ("sauvetage", "illimité"), ("acupuncture", "limité")])
      (some 5))).1.color = "Rouge" := by
  refine ⟨by decide, by norm_num, ?_⟩
  decide

/-- C10: aggregating an empty category sequence yields Gold — directly, and
through a rectification whose exclusion set names every produced category. -/
theorem empty_results_gold :
    calculate_overall_medal [] = "Gold" ∧
    ∀ rs : List CategoryResult,
      rectify_analysis rs (rs.map CategoryResult.name) = InsuranceAnalysis.mk "Gold" [] := by
  refine ⟨rfl, fun rs => ?_⟩
  unfold rectify_analysis
  have hempty : rs.filter (fun r => decide (r.name ∉ rs.map CategoryResult.name)) = [] := by
    rw [List.filter_eq_nil_iff]
    intro r hr
    simp only [decide_eq_true_eq, Decidable.not_not]
    exact List.mem_map_of_mem CategoryResult.name hr
  rw [hempty]
  rfl

theorem analyze_medecine_naturelle_name (data : MedecineNaturelleData) :
    (analyze_medecine_naturelle data).name = "Médecine naturelle" := by
  simp only [analyze_medecine_naturelle]
  split_ifs <;> rfl

theorem analyze_hospitalisation_name (data : HospitalisationData) :
    (analyze_hospitalisation data).name = "Hospitalisation" := by
  simp only [analyze_hospitalisation]
  split_ifs <;> rfl

theorem analyze_voyage_name (data : VoyageData) :
    (analyze_voyage data).name = "Voyage" := by
  simp only [analyze_voyage]
  split_ifs <;> rfl

theorem analyze_ambulatoire_fst_name (data : AmbulatoireData) :
    (analyze_ambulatoire data).1.name = "Ambulatoire" := by
  simp only [analyze_ambulatoire]
  split_ifs <;> rfl

theorem analyze_accident_name (data : AccidentData) :
    (analyze_accident data).name = "Accident" := by
  simp only [analyze_accident]
  split_ifs <;> rfl

theorem analyze_dentaire_name (data : DentaireData) (parsedBirth : Option Int) (nowDays : Int) :
    (analyze_dentaire data parsedBirth nowDays).name = "Dentaire" := by
  simp only [analyze_dentaire]
  split_ifs <;> rfl

theorem analyze_pdf_names (d : PdfData) (parsedBirth : Option Int) (nowDays : Int) :
    (analyze_pdf d parsedBirth nowDays).1.categories.map CategoryResult.name =
      categories_list := by
  simp [analyze_pdf, categories_list, analyze_medecine_naturelle_name,
    analyze_hospitalisation_name, analyze_voyage_name, analyze_ambulatoire_fst_name,
    analyze_accident_name, analyze_dentaire_name]

theorem countP_mem_eq_length (names ex : List String)
    (hn : names.Nodup) (hex : ex.Nodup) (hsub : ∀ n ∈ ex, n ∈ names) :
    names.countP (fun n => decide (n ∈ ex)) = ex.length := by
  rw [List.countP_eq_length_filter]
  have hperm : List.Perm (names.filter (fun n => decide (n ∈ ex))) ex := by
    rw [List.perm_ext_iff_of_nodup (hn.filter _) hex]
    intro a
    simp only [List.mem_filter, decide_eq_true_eq]
    exact ⟨fun h => h.2, fun h => ⟨hsub a h, h⟩⟩
  exact hperm.length_eq

theorem length_filter_not_mem_of_nodup (l : List CategoryResult) (ex : List String)
    (hl : (l.map CategoryResult.name).Nodup) (hex : ex.Nodup)
    (hsub : ∀ n ∈ ex, n ∈ l.map CategoryResult.name) :
    (l.filter (fun r => decide (r.name ∉ ex))).length = l.length - ex.length := by
  rw [← List.countP_eq_length_filter]
  have hsplit := List.length_eq_countP_add_countP (fun r => decide (r.name ∈ ex)) l
  have hcompl : l.countP (fun a => decide ¬(decide (a.name ∈ ex) = true)) =
      l.countP (fun r => decide (r.name ∉ ex)) := by
    apply List.countP_congr
    intro a _
    simp
  have hmap : l.countP (fun r => decide (r.name ∈ ex)) =
      (l.map CategoryResult.name).countP (fun n => decide (n ∈ ex)) := by
    rw [List.countP_map]
    rfl
  have hcount : l.countP (fun r => decide (r.name ∈ ex)) = ex.length := by
    rw [hmap]
    exact countP_mem_eq_length _ ex hl hex hsub
  omega

/-- C5 amended: `analyze_pdf` always produces exactly the six categories in
the fixed order; a subsequent rectification whose exclusion set has k
distinct names, each the name of a produced category, keeps exactly 6 − k
categories and preserves their relative order. -/
theorem evaluate_six_rectify_length (d : PdfData) (parsedBirth : Option Int) (nowDays : Int)
    (ex : List String) (hex : ex.Nodup)
    (hsub : ∀ n ∈ ex, n ∈ (analyze_pdf d parsedBirth nowDays).1.categories.map
      CategoryResult.name) :
    ((analyze_pdf d parsedBirth nowDays).1.categories.map CategoryResult.name =
      categories_list) ∧
    ((rectify_analysis (analyze_pdf d parsedBirth nowDays).1.categories ex).categories.length =
      6 - ex.length) ∧
    List.Sublist
      (rectify_analysis (analyze_pdf d parsedBirth nowDays).1.categories ex).categories
      (analyze_pdf d parsedBirth nowDays).1.categories := by
  have hnames := analyze_pdf_names d parsedBirth nowDays
  refine ⟨hnames, ?_, List.filter_sublist _⟩
  show ((analyze_pdf d parsedBirth nowDays).1.categories.filter
    (fun r => decide (r.name ∉ ex))).length = 6 - ex.length
  rw [length_filter_not_mem_of_nodup _ ex (by rw [hnames]; decide) hex hsub]
  have hlen : (analyze_pdf d parsedBirth nowDays).1.categories.length = 6 := by
    have hmaplen := congrArg List.length hnames
    rw [List.length_map] at hmaplen
    exact hmaplen
  rw [hlen]

/-- C5 witness: on the all-defaults input, excluding the two produced
categories "Voyage" and "Accident" leaves 6 − 2 categories. -/
theorem evaluate_six_rectify_length_witness :
    (rectify_analysis
        (analyze_pdf (PdfData.mk none none none none none none none) none 0).1.categories
        ["Voyage", "Accident"]).categories.length =
      6 - (["Voyage", "Accident"] : List String).length := by
  refine (evaluate_six_rectify_length (PdfData.mk none none none none none none none)
    none 0 ["Voyage", "Accident"] (by decide) ?_).2.1
  simp only [analyze_pdf_names]
  decide

/-- C5 counterexample: an exclusion set of size 1 holding a name that is not
a produced category leaves all 6 categories, not 6 − 1 — so the claim's
"every exclusion set of size k" fails for unknown names. -/
theorem rectify_length_unknown_name_counterexample :
    (["Inconnu"] : List String).Nodup ∧
    (analyze_pdf (PdfData.mk none none none none none none none) none 0).1.categories.length
      = 6 ∧
    ¬((rectify_analysis
        (analyze_pdf (PdfData.mk none none none none none none none) none 0).1.categories
        ["Inconnu"]).categories.length =
      6 - (["Inconnu"] : List String).length) := by
  refine ⟨by decide, by decide, ?_⟩
  decide

theorem analyze_ambulatoire_snd (data : AmbulatoireData) :
    (analyze_ambulatoire data).2 = fill_required (data.prestations.getD []) := by
  simp only [analyze_ambulatoire]
  split_ifs <;> rfl

theorem fill_required_of_all_present (m : List (String × String))
    (h : required_keys.all (fun key => (m.lookup key).isSome) = true) :
    fill_required m = m := by
  simp only [required_keys, List.all_cons, List.all_nil, Bool.and_true, Bool.and_eq_true] at h
  obtain ⟨h1, h2, h3, h4, h5⟩ := h
  simp [fill_required, required_keys, h1, h2, h3, h4, h5]

/-- C4 counterexample: on an input whose outpatient services dict is present
but misses required keys, `analyze_pdf` observably mutates its input — the
returned post-call state differs from the input. -/
theorem evaluate_mutates_input_counterexample :
    ¬((analyze_pdf
        (PdfData.mk none none none none
          (some (AmbulatoireData.mk (some [("lunettes", "illimité")]) (some 5))) none none)
        none 0).2 =
      PdfData.mk none none none none
        (some (AmbulatoireData.mk (some [("lunettes", "illimité")]) (some 5))) none none) := by
  decide

/-- C4 amended: `analyze_pdf` leaves every field of its input unchanged
except the outpatient services dict, which (when present) is filled in
place with the missing required keys as "absent"; when every required key
is already present the input is entirely unchanged. -/
theorem evaluate_input_mutation (d : PdfData) (parsedBirth : Option Int) (nowDays : Int) :
    ((analyze_pdf d parsedBirth nowDays).2.birth_date = d.birth_date ∧
     (analyze_pdf d parsedBirth nowDays).2.medecine_naturelle = d.medecine_naturelle ∧
     (analyze_pdf d parsedBirth nowDays).2.hospitalisation = d.hospitalisation ∧
     (analyze_pdf d parsedBirth nowDays).2.voyage = d.voyage ∧
     (analyze_pdf d parsedBirth nowDays).2.accident = d.accident ∧
     (analyze_pdf d parsedBirth nowDays).2.dentaire = d.dentaire) ∧
    ((analyze_pdf d parsedBirth nowDays).2.ambulatoire.map AmbulatoireData.participation =
      d.ambulatoire.map AmbulatoireData.participation) ∧
    ((analyze_pdf d parsedBirth nowDays).2.ambulatoire.map AmbulatoireData.prestations =
      d.ambulatoire.map (fun a => a.prestations.map fill_required)) ∧
    ((d.ambulatoire.all (fun a => a.prestations.all
        (fun m => required_keys.all (fun key => (m.lookup key).isSome)))) = true →
      (analyze_pdf d parsedBirth nowDays).2 = d) := by
  obtain ⟨bd, mn, hosp, voy, am, ac, de⟩ := d
  rcases am with _ | ⟨pres, part⟩
  · simp [analyze_pdf]
  · rcases pres with _ | m
    · simp [analyze_pdf]
    · refine ⟨?_, ?_, ?_, ?_⟩
      · simp [analyze_pdf]
      · simp [analyze_pdf]
      · simp [analyze_pdf, analyze_ambulatoire_snd]
      · intro h
        simp only [Option.all_some, required_keys] at h
        have hfill : fill_required m = m :=
          fill_required_of_all_present m (by simpa [required_keys] using h)
        simp [analyze_pdf, analyze_ambulatoire_snd, hfill]

/-- C4 amended witness: when all five required service keys are present,
the input comes back entirely unchanged. -/
theorem evaluate_input_mutation_witness :
    (analyze_pdf
        (PdfData.mk none none none none
          (some (AmbulatoireData.mk
            (some [("lunettes", "illimité"), ("psychotherapie", "limité"),
              ("medicaments_hors_liste", "limité"), ("transport", "illimité"),
              ("sauvetage", "illimité")]) (some 5))) none none)
        none 0).2 =
      PdfData.mk none none none none
        (some (AmbulatoireData.mk
          (some [("lunettes", "illimité"), ("psychotherapie", "limité"),
            ("medicaments_hors_liste", "limité"), ("transport", "illimité"),
            ("sauvetage", "illimité")]) (some 5))) none none :=
  (evaluate_input_mutation
    (PdfData.mk none none none none
      (some (AmbulatoireData.mk
        (some [("lunettes", "illimité"), ("psychotherapie", "limité"),
          ("medicaments_hors_liste", "limité"), ("transport", "illimité"),
          ("sauvetage", "illimité")]) (some 5))) none none)
    none 0).2.2.2 (by decide)

end Rules
